import Mathlib

/-!
Verification of the gbm_kms backend of libgbm (src/backend_kms.c and
src/gbm_kmsint.h) against its natural-language specification.

The C code is shallowly embedded: every struct becomes a Lean structure,
every backend entry point a pure Lean function on those structures.
Pointer mutation becomes explicit state passing; errno plus a sentinel
return value becomes an Except result; the external collaborators
(libkms allocation and mapping, the DRM prime handle/FD exchange) become
explicit environment parameters describing the outcome of each external
call. NULL pointers are modelled with Option; dereferencing a C NULL
pointer is modelled by an Option-valued result being none.
-/

namespace LibGbmKms

/-- Equality of Except results is decidable whenever both component types
have decidable equality; used to evaluate the model on concrete inputs. -/
instance instDecidableEqExcept {e a : Type} [DecidableEq e] [DecidableEq a] :
    DecidableEq (Except e a)
  | .ok x, .ok y =>
    if h : x = y then .isTrue (by rw [h])
    else .isFalse (fun hxy => h (Except.ok.inj hxy))
  | .ok _, .error _ => .isFalse (fun hxy => Except.noConfusion hxy)
  | .error _, .ok _ => .isFalse (fun hxy => Except.noConfusion hxy)
  | .error x, .error y =>
    if h : x = y then .isTrue (by rw [h])
    else .isFalse (fun hxy => h (Except.error.inj hxy))

/-- Errno outcomes of the backend calls: EINVAL for an invalid argument,
EFAULT for a write on an unmapped buffer, and EEXT standing for whatever
errno an external call (libkms or a DRM prime ioctl) left behind when it
failed. -/
inductive Errno where
  | EINVAL
  | EFAULT
  | EEXT
  deriving DecidableEq, Repr

/-- Sentinel for an invalid or unsupported format modifier, defined in
backend_kms.c as ((1ULL shifted left by 56) - 1). -/
def DRM_FORMAT_MOD_INVALID : Nat := 2 ^ 56 - 1

/-- Maximum number of planes of a buffer object, from gbm_kmsint.h. -/
def MAX_PLANES : Nat := 3

/-- Canonical fourcc code of the ARGB8888 format, AR24 little endian,
from the gbm format list. -/
def GBM_FORMAT_ARGB8888 : Nat := 0x34325241

/-- Canonical fourcc code of the XRGB8888 format, XR24 little endian,
from the gbm format list. -/
def GBM_FORMAT_XRGB8888 : Nat := 0x34325258

/-- Modelled from the spec: the repository header gbm.h is not under src/;
it declares the two legacy plain-BO format constants as the first two
members of an enumeration, so they take the values 0 and 1, distinct from
every fourcc code. The spec calls them the legacy aliases of the canonical
XRGB8888/ARGB8888 formats. -/
def GBM_BO_FORMAT_XRGB8888 : Nat := 0

/-- Modelled from the spec: second member of the legacy plain-BO format
enumeration in gbm.h (see GBM_BO_FORMAT_XRGB8888). -/
def GBM_BO_FORMAT_ARGB8888 : Nat := 1

/-- Modelled from the spec: gbm.h usage flag for cursor buffers, bit 1. -/
def GBM_BO_USE_CURSOR : Nat := 2

/-- Modelled from the spec: gbm.h usage flag requesting write access, bit 3. -/
def GBM_BO_USE_WRITE : Nat := 8

/-- Per-plane metadata of a buffer object: struct gbm_kms_plane of
gbm_kmsint.h. -/
@[ext]
structure GbmKmsPlane where
  handle : Nat
  stride : Nat
  deriving DecidableEq, Repr

/-- struct gbm_kms_bo of gbm_kmsint.h, with the fields of the embedded
struct gbm_bo base that the backend reads or writes (width, height, format,
stride, handle: the gbm pointer of base is an irrelevant back reference and
is dropped). bo is the kms_bo pointer (only its NULL-ness matters to this
backend, so it is Option Unit), addr the CPU mapping (none = NULL), fd the
exported file descriptor (0 = none, as the C code tests it with if (bo->fd)).
planes lists the first num_planes entries of the C planes array. -/
@[ext]
structure GbmKmsBo where
  width : Nat
  height : Nat
  format : Nat
  stride : Nat
  handle : Nat
  bo : Option Unit
  addr : Option Nat
  map_ref : Int
  fd : Int
  locked : Nat
  size : Nat
  allocated : Bool
  allocated_handle : Bool
  num_planes : Nat
  planes : List GbmKmsPlane
  deriving DecidableEq, Repr

/-- struct gbm_kms_surface of gbm_kmsint.h: the embedded gbm_surface base
fields the backend touches, the two buffer slots bo[0] and bo[1], and the
front index (-1 when no front buffer exists yet). -/
@[ext]
structure GbmKmsSurface where
  width : Nat
  height : Nat
  format : Nat
  flags : Nat
  bo0 : Option GbmKmsBo
  bo1 : Option GbmKmsBo
  front : Int
  deriving DecidableEq, Repr

/-- Reading the slot array surface->bo[n] at an Int index: indices other
than 0 and 1 are out of bounds of the C array and yield nothing. -/
def getSlot (s : GbmKmsSurface) (n : Int) : Option GbmKmsBo :=
  if n = 0 then s.bo0 else if n = 1 then s.bo1 else none

/-- Writing the slot array surface->bo[n] at an Int index. -/
def setSlot (s : GbmKmsSurface) (n : Int) (b : Option GbmKmsBo) : GbmKmsSurface :=
  if n = 0 then { s with bo0 := b } else if n = 1 then { s with bo1 := b } else s

/-- gbm_format_canonicalize of backend_kms.c: the two legacy plain-BO
constants map to the canonical fourcc codes, everything else is returned
unchanged. -/
def gbm_format_canonicalize (gbm_format : Nat) : Nat :=
  if gbm_format = GBM_BO_FORMAT_XRGB8888 then GBM_FORMAT_XRGB8888
  else if gbm_format = GBM_BO_FORMAT_ARGB8888 then GBM_FORMAT_ARGB8888
  else gbm_format

/-- gbm_kms_is_format_supported of backend_kms.c: canonicalize, then accept
exactly the two 32bpp formats; the usage argument is never read. -/
def gbm_kms_is_format_supported (format : Nat) (_usage : Nat) : Bool :=
  let fourcc := gbm_format_canonicalize format
  fourcc == GBM_FORMAT_ARGB8888 || fourcc == GBM_FORMAT_XRGB8888

/-- gbm_kms_get_format_modifier_plane_count of backend_kms.c: always -1,
meaning the modifier is unsupported. -/
def gbm_kms_get_format_modifier_plane_count (_format : Nat) (_modifier : Nat) : Int :=
  -1

/-- gbm_kms_bo_map_ref of backend_kms.c. The kmsMap argument is the outcome
kms_bo_map would report if called: some address on success, none on failure
(the C code returns the negative kms status; the model returns -1 for any
failure and 0 for success, paired with the resulting BO state). When the
reference count is nonzero the external call is not made at all and the
count is merely incremented. -/
def gbm_kms_bo_map_ref (kmsMap : Option Nat) (bo : GbmKmsBo) : Int × GbmKmsBo :=
  if bo.map_ref = 0 then
    match kmsMap with
    | none => (-1, bo)
    | some a => (0, { bo with addr := some a, map_ref := bo.map_ref + 1 })
  else (0, { bo with map_ref := bo.map_ref + 1 })

/-- gbm_kms_bo_map_unref of backend_kms.c: a no-op when the address is
NULL; otherwise decrement the count, and at zero unmap and clear the
address. -/
def gbm_kms_bo_map_unref (bo : GbmKmsBo) : GbmKmsBo :=
  if bo.addr = none then bo
  else if bo.map_ref - 1 = 0 then { bo with map_ref := bo.map_ref - 1, addr := none }
  else { bo with map_ref := bo.map_ref - 1 }

/-- The externally visible effects of gbm_kms_bo_destroy: whether
kms_bo_unmap ran, whether close(fd) ran, whether kms_bo_destroy ran, and
whether the structure was freed. -/
@[ext]
structure DestroyTrace where
  unmapped : Bool
  closed_fd : Bool
  destroyed_kms_bo : Bool
  freed : Bool
  deriving DecidableEq, Repr

/-- gbm_kms_bo_destroy of backend_kms.c, on a possibly NULL BO pointer.
The C code returns immediately on NULL; otherwise, only when allocated is
true, it unmaps if the address is non NULL, closes the fd if it is nonzero
and destroys the kms_bo if it is non NULL; in every non NULL case it frees
the structure. -/
def gbm_kms_bo_destroy : Option GbmKmsBo → DestroyTrace
  | none =>
    { unmapped := false, closed_fd := false, destroyed_kms_bo := false, freed := false }
  | some bo =>
    if bo.allocated then
      { unmapped := bo.addr.isSome, closed_fd := bo.fd != 0,
        destroyed_kms_bo := bo.bo.isSome, freed := true }
    else
      { unmapped := false, closed_fd := false, destroyed_kms_bo := false, freed := true }

/-- The buffer type hint gbm_kms_bo_create passes to kms_bo_create. -/
inductive KmsBoType where
  | scanout_x8r8g8b8
  | cursor_64x64_a8r8g8b8
  deriving DecidableEq, Repr

/-- Outcomes of the external calls gbm_kms_bo_create makes: kms_bo_create
together with the two kms_bo_get_prop reads (handle and pitch on success),
drmPrimeHandleToFD (an fd on success), and kms_bo_map (an address on
success, consulted only when write usage asks for an eager mapping). -/
structure KmsEnv where
  alloc : KmsBoType → Nat → Nat → Option (Nat × Nat)
  prime_handle_to_fd : Nat → Option Int
  map_addr : Option Nat

/-- gbm_kms_bo_create of backend_kms.c: reject a format that does not
canonicalize to ARGB8888 or XRGB8888 with EINVAL; pick the cursor type hint
when the cursor usage bit is set; allocate through kms, read back handle
and pitch, compute size as stride times height, mark the BO allocated;
export a prime fd; and when the write usage bit is set take an eager map
reference. Every failure after the calloc rolls the BO back through
gbm_kms_bo_destroy and reports the external errno (EEXT here, EINVAL for
the format check). -/
def gbm_kms_bo_create (env : KmsEnv) (width height format usage : Nat) :
    Except Errno GbmKmsBo :=
  let fourcc := gbm_format_canonicalize format
  if fourcc ≠ GBM_FORMAT_ARGB8888 ∧ fourcc ≠ GBM_FORMAT_XRGB8888 then
    .error .EINVAL
  else
    let ty : KmsBoType :=
      if usage &&& GBM_BO_USE_CURSOR ≠ 0 then .cursor_64x64_a8r8g8b8
      else .scanout_x8r8g8b8
    match env.alloc ty width height with
    | none => .error .EEXT
    | some (handle, pitch) =>
      let bo0 : GbmKmsBo :=
        { width := width, height := height, format := fourcc, stride := pitch,
          handle := handle, bo := some (), addr := none, map_ref := 0, fd := 0,
          locked := 0, size := pitch * height, allocated := true,
          allocated_handle := false, num_planes := 1, planes := [] }
      match env.prime_handle_to_fd handle with
      | none => .error .EEXT
      | some fd =>
        let bo1 := { bo0 with fd := fd }
        if usage &&& GBM_BO_USE_WRITE ≠ 0 then
          let r := gbm_kms_bo_map_ref env.map_addr bo1
          if r.1 < 0 then .error .EEXT else .ok r.2
        else .ok bo1

/-- gbm_kms_bo_map of backend_kms.c: any request that is not the full
extent at the origin fails with EINVAL before touching the mapping state;
otherwise take a map reference and on success hand back the mapped address
(through map_data) and the stride of the BO. The pair carries the BO state
after the call next to the result. -/
def gbm_kms_bo_map (kmsMap : Option Nat) (bo : GbmKmsBo)
    (x y width height _flags : Nat) :
    GbmKmsBo × Except Errno (Option Nat × Nat) :=
  if x ≠ 0 ∨ y ≠ 0 ∨ width ≠ bo.width ∨ height ≠ bo.height then
    (bo, .error .EINVAL)
  else
    let r := gbm_kms_bo_map_ref kmsMap bo
    if r.1 < 0 then (r.2, .error .EEXT)
    else (r.2, .ok (r.2.addr, r.2.stride))

/-- gbm_kms_bo_unmap of backend_kms.c: ignore a NULL map_data or one that
is not the current address, otherwise drop one map reference. -/
def gbm_kms_bo_unmap (bo : GbmKmsBo) (map_data : Option Nat) : GbmKmsBo :=
  if map_data = none ∨ map_data ≠ bo.addr then bo
  else gbm_kms_bo_map_unref bo

/-- memcpy(dst, src, n) over byte lists: the first n bytes come from src,
the rest of dst stays. -/
def memcpy_bytes (dst src : List Nat) (n : Nat) : List Nat :=
  src.take n ++ dst.drop n

/-- gbm_kms_bo_write of backend_kms.c. mem is the content of the mapped
region the address points at; the C code fails with EFAULT when addr is
NULL, with EINVAL when count exceeds size, and otherwise memcpy-es count
bytes from buf to the start of the region. -/
def gbm_kms_bo_write (bo : GbmKmsBo) (mem buf : List Nat) (count : Nat) :
    Except Errno (List Nat) :=
  if bo.addr = none then .error .EFAULT
  else if bo.size < count then .error .EINVAL
  else .ok (memcpy_bytes mem buf count)

/-- gbm_kms_bo_get_planes of backend_kms.c. -/
def gbm_kms_bo_get_planes (bo : GbmKmsBo) : Nat :=
  bo.num_planes

/-- gbm_kms_bo_get_stride of backend_kms.c: EINVAL outside [0, num_planes);
otherwise the base stride for a single-plane BO, else the stride of the
requested plane. -/
def gbm_kms_bo_get_stride (bo : GbmKmsBo) (plane : Int) : Except Errno Nat :=
  if plane < 0 ∨ (bo.num_planes : Int) ≤ plane then .error .EINVAL
  else .ok (if bo.num_planes = 1 then bo.stride
            else (bo.planes.getD plane.toNat { handle := 0, stride := 0 }).stride)

/-- gbm_kms_bo_get_offset of backend_kms.c: the C function body is a single
return 0 statement; no plane validation, no errno. Its result is wrapped in
the same Except shape as its sibling accessors, with ok 0 for every input. -/
def gbm_kms_bo_get_offset (_bo : GbmKmsBo) (_plane : Int) : Except Errno Nat :=
  .ok 0

/-- gbm_kms_bo_get_handle of backend_kms.c: EINVAL (and -1 in the returned
union) outside [0, num_planes); otherwise the base handle for a
single-plane BO, else the handle of the requested plane. -/
def gbm_kms_bo_get_handle (bo : GbmKmsBo) (plane : Int) : Except Errno Nat :=
  if plane < 0 ∨ (bo.num_planes : Int) ≤ plane then .error .EINVAL
  else .ok (if bo.num_planes = 1 then bo.handle
            else (bo.planes.getD plane.toNat { handle := 0, stride := 0 }).handle)

/-- gbm_kms_bo_get_modifier of backend_kms.c: always the invalid-modifier
sentinel. -/
def gbm_kms_bo_get_modifier (_bo : GbmKmsBo) : Nat :=
  DRM_FORMAT_MOD_INVALID

/-- struct gbm_import_fd_modifier_data as gbm_kms_import_fd_modifier reads
it: geometry, format, the fd count, the fd and stride arrays, and the
modifier. -/
structure GbmImportFdModifierData where
  width : Nat
  height : Nat
  format : Nat
  num_fds : Nat
  fds : List Int
  strides : List Nat
  modifier : Nat
  deriving DecidableEq, Repr

/-- The for loop of gbm_kms_import_fd_modifier exchanging each fd for a
kernel handle through drmPrimeFDToHandle (the f argument): none as soon as
one exchange fails, otherwise the list of handles in input order. -/
def drm_prime_fd_to_handle_each (f : Int → Option Nat) : List Int → Option (List Nat)
  | [] => some []
  | fd :: fds =>
    match f fd with
    | none => none
    | some h =>
      match drm_prime_fd_to_handle_each f fds with
      | none => none
      | some hs => some (h :: hs)

/-- gbm_kms_import_fd_modifier of backend_kms.c: EINVAL for any modifier
other than the invalid-modifier sentinel; EINVAL for an fd count of zero or
above MAX_PLANES; then every fd is exchanged for a handle, the whole import
failing if any single exchange fails; on success the BO records the
geometry, the canonicalized format, stride and handle of plane 0 as the
base stride/handle, num_planes equal to the fd count and the per-plane
handle/stride pairs in input order. The calloc zero-fills everything else,
so the BO is non-owning (allocated = false). -/
def gbm_kms_import_fd_modifier (f : Int → Option Nat) (d : GbmImportFdModifierData) :
    Except Errno GbmKmsBo :=
  if d.modifier ≠ DRM_FORMAT_MOD_INVALID then .error .EINVAL
  else if d.num_fds ≤ 0 ∨ MAX_PLANES < d.num_fds then .error .EINVAL
  else
    match drm_prime_fd_to_handle_each f (d.fds.take d.num_fds) with
    | none => .error .EEXT
    | some handles =>
      .ok { width := d.width, height := d.height,
            format := gbm_format_canonicalize d.format,
            stride := d.strides.getD 0 0,
            handle := handles.getD 0 0,
            bo := none, addr := none, map_ref := 0, fd := 0, locked := 0,
            size := 0, allocated := false, allocated_handle := false,
            num_planes := d.num_fds,
            planes := List.zipWith (fun h s => { handle := h, stride := s })
              handles (d.strides.take d.num_fds) }

/-- The non-owning view BO gbm_kms_surface_set_bo installs in a slot: the
geometry of the surface, the given stride, address and fd, size computed as
stride times the surface height, single plane, not allocated; every other
field is zero from the calloc. -/
def surface_view_bo (s : GbmKmsSurface) (addr : Option Nat) (fd : Int) (stride : Nat) :
    GbmKmsBo :=
  { width := s.width, height := s.height, format := s.format, stride := stride,
    handle := 0, bo := none, addr := addr, map_ref := 0, fd := fd, locked := 0,
    size := stride * s.height, allocated := false, allocated_handle := false,
    num_planes := 1, planes := [] }

/-- gbm_kms_surface_set_bo of backend_kms.c: -1 for a slot index outside
0..1 with the surface untouched; otherwise the BO occupying the slot is
freed (modelled as the slot becoming empty); a NULL address with zero
stride detaches only and returns 0; otherwise a fresh non-owning view BO is
installed in the slot and 0 is returned. -/
def gbm_kms_surface_set_bo (s : GbmKmsSurface) (n : Int) (addr : Option Nat)
    (fd : Int) (stride : Nat) : GbmKmsSurface × Int :=
  if n < 0 ∨ 1 < n then (s, -1)
  else
    let s1 := setSlot s n none
    if addr = none ∧ stride = 0 then (s1, 0)
    else (setSlot s1 n (some (surface_view_bo s addr fd stride)), 0)

/-- gbm_kms_surface_create of backend_kms.c: a calloc-ed surface carrying
the given geometry, format and flags, both slots NULL, and front set to -1. -/
def gbm_kms_surface_create (width height format flags : Nat) : GbmKmsSurface :=
  { width := width, height := height, format := format, flags := flags,
    bo0 := none, bo1 := none, front := -1 }

/-- gbm_kms_surface_lock_front_buffer of backend_kms.c: when front is
nonnegative the BO in the front slot gets locked = 1 through the slot
pointer and is returned; when front is -1 NULL is returned and nothing
changes. The outer Option is none exactly when the C code would
dereference a NULL or out-of-bounds slot (front nonnegative but no BO
there), which is undefined behavior; otherwise the pair carries the
surface after the call and the returned BO. -/
def gbm_kms_surface_lock_front_buffer (s : GbmKmsSurface) :
    Option (GbmKmsSurface × Option GbmKmsBo) :=
  if 0 ≤ s.front then
    match getSlot s s.front with
    | none => none
    | some b =>
      some (setSlot s s.front (some { b with locked := 1 }),
            some { b with locked := 1 })
  else some (s, none)

/-- gbm_kms_surface_release_buffer of backend_kms.c: clears locked on the
given BO; the surface argument is not read. -/
def gbm_kms_surface_release_buffer (_s : GbmKmsSurface) (bo : GbmKmsBo) : GbmKmsBo :=
  { bo with locked := 0 }

/-- Releasing the BO held in slot n of a surface: the consumer holds the
pointer stored in the slot, so clearing locked through that pointer updates
the BO the slot holds. A slot with no BO is left as is (the C caller would
be passing a dangling pointer). -/
def releaseSlotBo (s : GbmKmsSurface) (n : Int) : GbmKmsSurface :=
  match getSlot s n with
  | some b => setSlot s n (some (gbm_kms_surface_release_buffer s b))
  | none => s

/-- gbm_kms_surface_has_free_buffers of backend_kms.c: reads
bo[0]->locked and bo[1]->locked and returns their disjunction of
unlocked-ness. The outer Option is none when either slot is NULL, where
the C code would dereference a NULL pointer. -/
def gbm_kms_surface_has_free_buffers (s : GbmKmsSurface) : Option Bool :=
  match s.bo0, s.bo1 with
  | some b0, some b1 => some (b0.locked == 0 || b1.locked == 0)
  | _, _ => none

/-! Sample inputs used by witnesses and counterexamples. -/

/-- An owning BO as gbm_kms_bo_create would produce it: kernel allocation
present, exported fd 5, unmapped. -/
def sampleOwningBo : GbmKmsBo :=
  { width := 4, height := 4, format := GBM_FORMAT_XRGB8888, stride := 16,
    handle := 7, bo := some (), addr := none, map_ref := 0, fd := 5,
    locked := 0, size := 64, allocated := true, allocated_handle := false,
    num_planes := 1, planes := [] }

/-- A non-owning view BO holding an exported fd and a live mapping, as a
surface slot created by set_bo would after mapping: allocated is false. -/
def sampleViewBo : GbmKmsBo :=
  { width := 4, height := 4, format := GBM_FORMAT_XRGB8888, stride := 16,
    handle := 0, bo := some (), addr := some 4096, map_ref := 1, fd := 5,
    locked := 0, size := 64, allocated := false, allocated_handle := false,
    num_planes := 1, planes := [] }

/-- sampleViewBo with the locked flag raised. -/
def sampleLockedBo : GbmKmsBo :=
  { sampleViewBo with locked := 1 }

/-- A surface whose slot 0 holds sampleViewBo, slot 1 holds sampleLockedBo,
and whose front index is 0. -/
def sampleSurface : GbmKmsSurface :=
  { width := 4, height := 4, format := GBM_FORMAT_XRGB8888, flags := 0,
    bo0 := some sampleViewBo, bo1 := some sampleLockedBo, front := 0 }

/-- sampleSurface with both slot BOs locked. -/
def sampleLockedSurface : GbmKmsSurface :=
  { sampleSurface with bo0 := some sampleLockedBo, bo1 := some sampleLockedBo }

/-- A KmsEnv where every external call succeeds: allocation yields handle 7
with pitch 16, the prime exchange yields fd 5, mapping yields address 4096. -/
def sampleEnv : KmsEnv :=
  { alloc := fun _ _ _ => some (7, 16),
    prime_handle_to_fd := fun _ => some 5,
    map_addr := some 4096 }

/-- A prime fd-to-handle exchange succeeding on fds 10, 11 and 12 only. -/
def sampleFdToHandle : Int → Option Nat := fun fd =>
  if fd = 10 then some 100
  else if fd = 11 then some 101
  else if fd = 12 then some 102
  else none

/-- A three-plane import request with the no-modifier sentinel and three
exchangeable fds. -/
def sampleImport : GbmImportFdModifierData :=
  { width := 4, height := 4, format := GBM_FORMAT_XRGB8888, num_fds := 3,
    fds := [10, 11, 12], strides := [16, 8, 8],
    modifier := DRM_FORMAT_MOD_INVALID }

/-- The same import request with a modifier value the backend does not
support. -/
def sampleImportBadModifier : GbmImportFdModifierData :=
  { sampleImport with modifier := 0 }

/-!  C1: behavior of gbm_kms_bo_destroy. -/

/-- C1 counterexample: the claim says destroy closes the exported fd if one
is present and unmaps if mapped, for every non NULL BO. On the concrete
non-owning BO sampleViewBo, which holds fd 5 and a live mapping, destroy
neither closes the fd nor unmaps: the whole cleanup block of
gbm_kms_bo_destroy sits inside the if (bo->allocated) guard. -/
theorem bo_destroy_nonowning_fd_not_closed :
    sampleViewBo.allocated = false ∧
    sampleViewBo.fd ≠ 0 ∧
    sampleViewBo.addr.isSome = true ∧
    (gbm_kms_bo_destroy (some sampleViewBo)).closed_fd = false ∧
    (gbm_kms_bo_destroy (some sampleViewBo)).unmapped = false := by
  decide

/-- C1 (amended): destroy of a NULL BO is a no-op; destroy of any non NULL
BO frees the structure; and the unmap, the fd close and the kernel-buffer
destruction each happen exactly when the BO is the owner (allocated = true)
and the respective resource is present. In particular a non-owning BO never
has its kernel memory destroyed, and, unlike the original claim, its
exported fd is never released either. -/
theorem bo_destroy_spec (bo : GbmKmsBo) :
    gbm_kms_bo_destroy none =
      { unmapped := false, closed_fd := false, destroyed_kms_bo := false,
        freed := false } ∧
    (gbm_kms_bo_destroy (some bo)).freed = true ∧
    ((gbm_kms_bo_destroy (some bo)).unmapped = true ↔
      bo.allocated = true ∧ bo.addr.isSome = true) ∧
    ((gbm_kms_bo_destroy (some bo)).closed_fd = true ↔
      bo.allocated = true ∧ bo.fd ≠ 0) ∧
    ((gbm_kms_bo_destroy (some bo)).destroyed_kms_bo = true ↔
      bo.allocated = true ∧ bo.bo.isSome = true) := by
  unfold gbm_kms_bo_destroy
  by_cases h : bo.allocated <;> simp [h]

/-- C1 witness: the amended destroy theorem evaluated on the concrete
owning BO sampleOwningBo, whose fd 5 is closed by destroy. -/
theorem bo_destroy_spec_witness :
    (gbm_kms_bo_destroy (some sampleOwningBo)).closed_fd = true ∧
    (gbm_kms_bo_destroy (some sampleOwningBo)).freed = true :=
  ⟨((bo_destroy_spec sampleOwningBo).2.2.2.1).2 (by decide),
   (bo_destroy_spec sampleOwningBo).2.1⟩

/-!  C9: plane-indexed accessors and the modifier queries. -/

/-- C9 counterexample: the claim says get_offset fails with EINVAL when the
plane index is outside [0, num_planes). sampleOwningBo has a single plane,
yet get_offset at plane 5 returns 0 without any error: the C function body
is an unconditional return 0. -/
theorem bo_get_offset_no_validation :
    ((sampleOwningBo.num_planes : Int) ≤ 5) ∧
    gbm_kms_bo_get_offset sampleOwningBo 5 = Except.ok 0 ∧
    gbm_kms_bo_get_offset sampleOwningBo 5 ≠ Except.error Errno.EINVAL := by
  decide

/-- C9 (amended): get_stride and get_handle fail with EINVAL when the plane
index is outside [0, num_planes); get_offset reports zero for every plane
index, valid or not, and never fails; get_modifier always returns the
invalid-modifier sentinel, and get_format_modifier_plane_count always
reports unsupported with the negative value -1, for every format and
modifier. -/
theorem plane_accessors_spec (bo : GbmKmsBo) (plane : Int) (format modifier : Nat) :
    ((plane < 0 ∨ (bo.num_planes : Int) ≤ plane) →
      gbm_kms_bo_get_stride bo plane = .error .EINVAL ∧
      gbm_kms_bo_get_handle bo plane = .error .EINVAL) ∧
    gbm_kms_bo_get_offset bo plane = .ok 0 ∧
    gbm_kms_bo_get_modifier bo = DRM_FORMAT_MOD_INVALID ∧
    gbm_kms_get_format_modifier_plane_count format modifier = -1 ∧
    gbm_kms_get_format_modifier_plane_count format modifier < 0 := by
  refine ⟨fun h => ?_, rfl, rfl, rfl, by norm_num [gbm_kms_get_format_modifier_plane_count]⟩
  constructor <;> simp [gbm_kms_bo_get_stride, gbm_kms_bo_get_handle, h]

/-- C9 witness: the amended accessor theorem evaluated at plane -1 of the
concrete BO sampleOwningBo and at format 0 with modifier 0. -/
theorem plane_accessors_spec_witness :
    gbm_kms_bo_get_stride sampleOwningBo (-1) = .error .EINVAL ∧
    gbm_kms_bo_get_handle sampleOwningBo (-1) = .error .EINVAL :=
  (plane_accessors_spec sampleOwningBo (-1) 0 0).1 (by decide)

/-!  C7: format support and the format check of BO creation. -/

/-- Taking a map reference never changes the format of a BO. -/
theorem map_ref_format (km : Option Nat) (b : GbmKmsBo) :
    ((gbm_kms_bo_map_ref km b).2).format = b.format := by
  unfold gbm_kms_bo_map_ref
  rcases km with _ | a <;> by_cases h : b.map_ref = 0 <;> simp [h]

/-- C7: is_format_supported is true exactly when the format canonicalizes
to ARGB8888 or XRGB8888, independent of the usage flags; both legacy
aliases are accepted; BO creation with any format outside that set fails
with EINVAL no matter what the external environment would answer; and a
successfully created BO stores the canonical format, which is a fixed
point of canonicalization, never a legacy alias. -/
theorem format_support_spec :
    (∀ format usage, gbm_kms_is_format_supported format usage = true ↔
      (gbm_format_canonicalize format = GBM_FORMAT_ARGB8888 ∨
       gbm_format_canonicalize format = GBM_FORMAT_XRGB8888)) ∧
    (∀ format usage1 usage2,
      gbm_kms_is_format_supported format usage1 =
        gbm_kms_is_format_supported format usage2) ∧
    (∀ usage, gbm_kms_is_format_supported GBM_BO_FORMAT_ARGB8888 usage = true ∧
      gbm_kms_is_format_supported GBM_BO_FORMAT_XRGB8888 usage = true) ∧
    (∀ env width height format usage,
      ¬(gbm_format_canonicalize format = GBM_FORMAT_ARGB8888 ∨
        gbm_format_canonicalize format = GBM_FORMAT_XRGB8888) →
      gbm_kms_bo_create env width height format usage = .error .EINVAL) ∧
    (∀ env width height format usage bo,
      gbm_kms_bo_create env width height format usage = .ok bo →
      bo.format = gbm_format_canonicalize format ∧
      (bo.format = GBM_FORMAT_ARGB8888 ∨ bo.format = GBM_FORMAT_XRGB8888) ∧
      gbm_format_canonicalize bo.format = bo.format) := by
  refine ⟨fun format usage => ?_, fun _ _ _ => rfl, fun usage => ⟨rfl, rfl⟩,
    fun env w h format usage hbad => ?_, fun env w h format usage bo hok => ?_⟩
  · simp only [gbm_kms_is_format_supported, Bool.or_eq_true, beq_iff_eq]
  · push_neg at hbad
    simp [gbm_kms_bo_create, hbad.1, hbad.2]
  · by_cases hfmt : gbm_format_canonicalize format ≠ GBM_FORMAT_ARGB8888 ∧
        gbm_format_canonicalize format ≠ GBM_FORMAT_XRGB8888
    · simp [gbm_kms_bo_create, hfmt] at hok
    · have hfm : gbm_format_canonicalize format = GBM_FORMAT_ARGB8888 ∨
          gbm_format_canonicalize format = GBM_FORMAT_XRGB8888 := by
        rcases not_and_or.mp hfmt with h | h
        · exact Or.inl (not_not.mp h)
        · exact Or.inr (not_not.mp h)
      have hfmt2 : bo.format = gbm_format_canonicalize format := by
        unfold gbm_kms_bo_create at hok
        rw [if_neg hfmt] at hok
        dsimp only at hok
        repeat' split at hok
        any_goals exact Except.noConfusion hok
        all_goals cases Except.ok.inj hok
        all_goals first
          | rfl
          | rw [map_ref_format]
      refine ⟨hfmt2, hfmt2 ▸ hfm, ?_⟩
      rcases hfm with h | h <;> rw [hfmt2, h] <;> decide

/-- C7 witness: the format theorem evaluated concretely — the legacy alias
GBM_BO_FORMAT_XRGB8888 is supported, format 42 is not, BO creation with
format 42 under sampleEnv fails with EINVAL, and BO creation with the
legacy alias under sampleEnv stores the canonical XRGB8888 fourcc. -/
theorem format_support_spec_witness :
    gbm_kms_is_format_supported GBM_BO_FORMAT_XRGB8888 0 = true ∧
    gbm_kms_bo_create sampleEnv 4 4 42 0 = .error .EINVAL ∧
    (gbm_kms_bo_create sampleEnv 4 4 GBM_BO_FORMAT_XRGB8888 0).map
      GbmKmsBo.format = .ok GBM_FORMAT_XRGB8888 := by
  refine ⟨(format_support_spec.2.2.1 0).2, format_support_spec.2.2.2.1
    sampleEnv 4 4 42 0 (by decide), ?_⟩
  have h : gbm_kms_bo_create sampleEnv 4 4 GBM_BO_FORMAT_XRGB8888 0 =
      .ok { width := 4, height := 4, format := GBM_FORMAT_XRGB8888, stride := 16,
            handle := 7, bo := some (), addr := none, map_ref := 0, fd := 5,
            locked := 0, size := 64, allocated := true, allocated_handle := false,
            num_planes := 1, planes := [] } := by decide
  rw [h]
  decide

/-!  C2: surface creation, lock_front_buffer and release_buffer. -/

/-- C2: a freshly created surface has front = -1 and lock_front_buffer on
it returns NULL without touching the surface; when front is 0 or 1 and
that slot holds a BO, lock_front_buffer raises the locked flag of that BO
to 1 through the slot, returns that BO, and leaves front unchanged; and
release_buffer on the returned BO drops its locked flag back to 0. -/
theorem surface_lock_front_spec :
    (∀ width height format flags,
      (gbm_kms_surface_create width height format flags).front = -1 ∧
      gbm_kms_surface_lock_front_buffer (gbm_kms_surface_create width height format flags) =
        some (gbm_kms_surface_create width height format flags, none)) ∧
    (∀ (s : GbmKmsSurface) (b : GbmKmsBo),
      (s.front = 0 ∨ s.front = 1) → getSlot s s.front = some b →
      gbm_kms_surface_lock_front_buffer s =
        some (setSlot s s.front (some { b with locked := 1 }),
              some { b with locked := 1 }) ∧
      ({ b with locked := 1 } : GbmKmsBo).locked = 1 ∧
      (setSlot s s.front (some { b with locked := 1 })).front = s.front) ∧
    (∀ (s : GbmKmsSurface) (b : GbmKmsBo),
      (gbm_kms_surface_release_buffer s { b with locked := 1 }).locked = 0) := by
  refine ⟨fun w h f fl => ⟨rfl, rfl⟩, fun s b hf hslot => ?_, fun s b => rfl⟩
  have hfront : 0 ≤ s.front := by rcases hf with h | h <;> omega
  refine ⟨?_, rfl, ?_⟩
  · unfold gbm_kms_surface_lock_front_buffer
    rw [if_pos hfront, hslot]
  · rcases hf with h | h <;> simp [setSlot, h]

/-- C2 witness: the lock theorem evaluated on sampleSurface, whose front is
slot 0 holding the unlocked sampleViewBo; the returned BO is sampleViewBo
with locked = 1, and releasing it clears the flag again. -/
theorem surface_lock_front_spec_witness :
    gbm_kms_surface_lock_front_buffer sampleSurface =
      some (setSlot sampleSurface 0 (some { sampleViewBo with locked := 1 }),
            some { sampleViewBo with locked := 1 }) ∧
    (gbm_kms_surface_release_buffer sampleSurface
      { sampleViewBo with locked := 1 }).locked = 0 :=
  ⟨(surface_lock_front_spec.2.1 sampleSurface sampleViewBo (Or.inl rfl) rfl).1,
   surface_lock_front_spec.2.2 sampleSurface sampleViewBo⟩

/-!  C3: has_free_buffers. -/

/-- C3: on a surface whose two slots hold BOs, has_free_buffers answers
true exactly when at least one of the two BOs is unlocked; it answers
false when both are locked; and after releasing the BO held in either
slot it answers true again. -/
theorem surface_has_free_buffers_spec (s : GbmKmsSurface) (b0 b1 : GbmKmsBo)
    (h0 : s.bo0 = some b0) (h1 : s.bo1 = some b1) :
    (gbm_kms_surface_has_free_buffers s = some true ↔
      (b0.locked = 0 ∨ b1.locked = 0)) ∧
    (b0.locked ≠ 0 → b1.locked ≠ 0 →
      gbm_kms_surface_has_free_buffers s = some false) ∧
    gbm_kms_surface_has_free_buffers (releaseSlotBo s 0) = some true ∧
    gbm_kms_surface_has_free_buffers (releaseSlotBo s 1) = some true := by
  refine ⟨?_, fun hl0 hl1 => ?_, ?_, ?_⟩
  · simp [gbm_kms_surface_has_free_buffers, h0, h1]
  · simp [gbm_kms_surface_has_free_buffers, h0, h1, hl0, hl1]
  · simp [releaseSlotBo, getSlot, setSlot, h0, h1,
      gbm_kms_surface_release_buffer, gbm_kms_surface_has_free_buffers]
  · simp [releaseSlotBo, getSlot, setSlot, h0, h1,
      gbm_kms_surface_release_buffer, gbm_kms_surface_has_free_buffers]

/-- C3 witness: the has_free_buffers theorem evaluated on the concrete
surface with both slot BOs locked — it reports no free buffer, and one
release on either slot makes it report a free buffer again. -/
theorem surface_has_free_buffers_spec_witness :
    gbm_kms_surface_has_free_buffers sampleLockedSurface = some false ∧
    gbm_kms_surface_has_free_buffers (releaseSlotBo sampleLockedSurface 0) = some true ∧
    gbm_kms_surface_has_free_buffers (releaseSlotBo sampleLockedSurface 1) = some true :=
  ⟨(surface_has_free_buffers_spec sampleLockedSurface sampleLockedBo sampleLockedBo
      rfl rfl).2.1 (by decide) (by decide),
   (surface_has_free_buffers_spec sampleLockedSurface sampleLockedBo sampleLockedBo
      rfl rfl).2.2.1,
   (surface_has_free_buffers_spec sampleLockedSurface sampleLockedBo sampleLockedBo
      rfl rfl).2.2.2⟩

/-!  C4: surface set_bo (attach). -/

/-- C4: set_bo with a slot index outside 0..1 fails with -1 and leaves the
surface unchanged; with a valid index it unconditionally drops whatever BO
occupied the slot; a NULL address with zero stride detaches only, leaving
the slot empty, and returns 0; any other address/stride combination
installs a fresh non-owning single-plane BO whose size is the stride times
the surface height, and returns 0. -/
theorem surface_set_bo_spec (s : GbmKmsSurface) (n : Int) (addr : Option Nat)
    (fd : Int) (stride : Nat) :
    ((n < 0 ∨ 1 < n) → gbm_kms_surface_set_bo s n addr fd stride = (s, -1)) ∧
    (0 ≤ n → n ≤ 1 → addr = none → stride = 0 →
      gbm_kms_surface_set_bo s n addr fd stride = (setSlot s n none, 0) ∧
      getSlot (setSlot s n none) n = none) ∧
    (0 ≤ n → n ≤ 1 → ¬(addr = none ∧ stride = 0) →
      gbm_kms_surface_set_bo s n addr fd stride =
        (setSlot (setSlot s n none) n (some (surface_view_bo s addr fd stride)), 0) ∧
      getSlot (gbm_kms_surface_set_bo s n addr fd stride).1 n =
        some (surface_view_bo s addr fd stride) ∧
      (surface_view_bo s addr fd stride).allocated = false ∧
      (surface_view_bo s addr fd stride).num_planes = 1 ∧
      (surface_view_bo s addr fd stride).size = stride * s.height) := by
  have hn01 : (0 ≤ n → n ≤ 1 → n = 0 ∨ n = 1) := by omega
  refine ⟨fun hbad => ?_, fun hlo hhi haddr hstride => ⟨?_, ?_⟩,
    fun hlo hhi hdet => ⟨?_, ?_, rfl, rfl, rfl⟩⟩
  · unfold gbm_kms_surface_set_bo
    rw [if_pos hbad]
  · unfold gbm_kms_surface_set_bo
    rw [if_neg (by omega), if_pos ⟨haddr, hstride⟩]
  · rcases hn01 hlo hhi with h | h <;> simp [getSlot, setSlot, h]
  · unfold gbm_kms_surface_set_bo
    rw [if_neg (by omega), if_neg hdet]
  · unfold gbm_kms_surface_set_bo
    rw [if_neg (by omega), if_neg hdet]
    rcases hn01 hlo hhi with h | h <;> simp [getSlot, setSlot, h]

/-- C4 witness: set_bo evaluated concretely on sampleSurface — index 2 is
rejected with the surface unchanged, a NULL address with zero stride
empties slot 0, and attaching address 8192 with stride 16 to slot 1
installs a non-owning view BO of size 64 there. -/
theorem surface_set_bo_spec_witness :
    gbm_kms_surface_set_bo sampleSurface 2 (some 8192) 6 16 = (sampleSurface, -1) ∧
    gbm_kms_surface_set_bo sampleSurface 0 none 0 0 =
      (setSlot sampleSurface 0 none, 0) ∧
    getSlot (gbm_kms_surface_set_bo sampleSurface 1 (some 8192) 6 16).1 1 =
      some (surface_view_bo sampleSurface (some 8192) 6 16) ∧
    (surface_view_bo sampleSurface (some 8192) 6 16).size = 64 :=
  ⟨(surface_set_bo_spec sampleSurface 2 (some 8192) 6 16).1 (by decide),
   ((surface_set_bo_spec sampleSurface 0 none 0 0).2.1 (by decide) (by decide)
      rfl rfl).1,
   ((surface_set_bo_spec sampleSurface 1 (some 8192) 6 16).2.2 (by decide)
      (by decide) (by decide)).2.1,
   by decide⟩

/-!  C5: bo_write. -/

/-- C5: write fails with EFAULT when the BO has no active mapping; fails
with EINVAL when the requested length exceeds the byte size of the BO; and
otherwise succeeds, the mapped region afterwards holding exactly the first
count bytes of the source followed by the untouched tail of the old
content, with its length unchanged. The BO itself is never modified: write
returns only the new region content. -/
theorem bo_write_spec (bo : GbmKmsBo) (mem buf : List Nat) (count : Nat) :
    (bo.addr = none → gbm_kms_bo_write bo mem buf count = .error .EFAULT) ∧
    (bo.addr ≠ none → bo.size < count →
      gbm_kms_bo_write bo mem buf count = .error .EINVAL) ∧
    (bo.addr ≠ none → count ≤ bo.size → count ≤ buf.length →
      mem.length = bo.size →
      gbm_kms_bo_write bo mem buf count = .ok (memcpy_bytes mem buf count) ∧
      (memcpy_bytes mem buf count).take count = buf.take count ∧
      (memcpy_bytes mem buf count).drop count = mem.drop count ∧
      (memcpy_bytes mem buf count).length = mem.length) := by
  refine ⟨fun hnone => ?_, fun hsome hbig => ?_,
    fun hsome hfit hbuf hmem => ⟨?_, ?_, ?_, ?_⟩⟩
  · unfold gbm_kms_bo_write
    rw [if_pos hnone]
  · unfold gbm_kms_bo_write
    rw [if_neg hsome, if_pos hbig]
  · unfold gbm_kms_bo_write
    rw [if_neg hsome, if_neg (by omega)]
  · have hlen : (buf.take count).length = count := by
      simp [List.length_take]
      omega
    exact List.take_left' hlen
  · have hlen : (buf.take count).length = count := by
      simp [List.length_take]
      omega
    exact List.drop_left' hlen
  · unfold memcpy_bytes
    simp [List.length_take, List.length_drop]
    omega

/-- C5 witness: write evaluated concretely — on the unmapped
sampleOwningBo it fails with EFAULT; on the mapped sampleViewBo a write of
65 bytes into the 64-byte BO fails with EINVAL, and a full 64-byte write
replaces the region content. -/
theorem bo_write_spec_witness :
    gbm_kms_bo_write sampleOwningBo (List.replicate 64 0) (List.replicate 64 7) 64 =
      .error .EFAULT ∧
    gbm_kms_bo_write sampleViewBo (List.replicate 64 0) (List.replicate 65 7) 65 =
      .error .EINVAL ∧
    gbm_kms_bo_write sampleViewBo (List.replicate 64 0) (List.replicate 64 7) 64 =
      .ok (memcpy_bytes (List.replicate 64 0) (List.replicate 64 7) 64) ∧
    memcpy_bytes (List.replicate 64 0) (List.replicate 64 7) 64 =
      List.replicate 64 7 :=
  ⟨(bo_write_spec sampleOwningBo (List.replicate 64 0) (List.replicate 64 7) 64).1
      rfl,
   (bo_write_spec sampleViewBo (List.replicate 64 0) (List.replicate 65 7) 65).2.1
      (by decide) (by decide),
   ((bo_write_spec sampleViewBo (List.replicate 64 0) (List.replicate 64 7) 64).2.2
      (by decide) (by decide) (by simp) (by decide)).1,
   by decide⟩

/-!  C10: the public per-region map entry point. -/

/-- C10: a map request with a nonzero origin or an extent different from
the full BO extent fails with EINVAL and returns the BO with its mapping
state (count and address) untouched; the exact full-extent request at the
origin takes the reference-counted path — from an unmapped BO a
successful external mapping yields the address with count 1, and from an
already mapped BO the count is merely incremented and the existing address
returned — and on success hands back the mapped address together with the
stride of the BO. -/
theorem bo_map_region_spec (kmsMap : Option Nat) (bo : GbmKmsBo)
    (x y width height flags : Nat) :
    (¬(x = 0 ∧ y = 0 ∧ width = bo.width ∧ height = bo.height) →
      gbm_kms_bo_map kmsMap bo x y width height flags = (bo, .error .EINVAL)) ∧
    (∀ a, bo.map_ref = 0 → kmsMap = some a →
      gbm_kms_bo_map kmsMap bo 0 0 bo.width bo.height flags =
        ({ bo with addr := some a, map_ref := 1 }, .ok (some a, bo.stride))) ∧
    (0 < bo.map_ref →
      gbm_kms_bo_map kmsMap bo 0 0 bo.width bo.height flags =
        ({ bo with map_ref := bo.map_ref + 1 }, .ok (bo.addr, bo.stride))) := by
  refine ⟨fun hbad => ?_, fun a h0 hk => ?_, fun hpos => ?_⟩
  · unfold gbm_kms_bo_map
    rw [if_pos (by tauto)]
  · unfold gbm_kms_bo_map
    rw [if_neg (by simp)]
    simp [gbm_kms_bo_map_ref, h0, hk]
  · unfold gbm_kms_bo_map
    rw [if_neg (by simp)]
    have hnz : ¬bo.map_ref = 0 := by omega
    simp [gbm_kms_bo_map_ref, hnz]

/-- C10 witness: the map entry point evaluated concretely — a request at
origin (1, 0) on sampleOwningBo fails with EINVAL and leaves the BO as it
was, while the exact full-extent request maps it at address 4096 with
count 1 and returns that address and stride 16. -/
theorem bo_map_region_spec_witness :
    gbm_kms_bo_map (some 4096) sampleOwningBo 1 0 4 4 0 =
      (sampleOwningBo, .error .EINVAL) ∧
    gbm_kms_bo_map (some 4096) sampleOwningBo 0 0 4 4 0 =
      ({ sampleOwningBo with addr := some 4096, map_ref := 1 },
       .ok (some 4096, 16)) :=
  ⟨(bo_map_region_spec (some 4096) sampleOwningBo 1 0 4 4 0).1 (by decide),
   (bo_map_region_spec (some 4096) sampleOwningBo 0 0 4 4 0).2.1 4096 rfl rfl⟩

/-!  C6: import with modifier data. -/

/-- The fd exchange loop fails as soon as any listed fd fails to
exchange. -/
theorem each_none_of_mem (f : Int → Option Nat) :
    ∀ l : List Int, (∃ fd ∈ l, f fd = none) →
      drm_prime_fd_to_handle_each f l = none := by
  intro l
  induction l with
  | nil => rintro ⟨fd, hmem, _⟩; cases hmem
  | cons a l ih =>
    rintro ⟨fd, hmem, hnone⟩
    unfold drm_prime_fd_to_handle_each
    rcases List.mem_cons.mp hmem with h | h
    · rw [show f a = none from h ▸ hnone]
    · rcases hf : f a with _ | v
      · rfl
      · rw [ih ⟨fd, h, hnone⟩]

/-- A successful fd exchange loop yields one handle per fd, each obtained
by exchanging the fd at the same position. -/
theorem each_some_spec (f : Int → Option Nat) :
    ∀ (l : List Int) (hs : List Nat),
      drm_prime_fd_to_handle_each f l = some hs →
      hs.length = l.length ∧
      ∀ i, i < l.length → f (l.getD i 0) = some (hs.getD i 0) := by
  intro l
  induction l with
  | nil =>
    intro hs h
    unfold drm_prime_fd_to_handle_each at h
    cases Option.some.inj h
    exact ⟨rfl, fun i hi => absurd hi (by simp)⟩
  | cons a l ih =>
    intro hs h
    unfold drm_prime_fd_to_handle_each at h
    rcases hf : f a with _ | v
    · rw [hf] at h; exact Option.noConfusion h
    · rw [hf] at h
      rcases hrest : drm_prime_fd_to_handle_each f l with _ | vs
      · rw [hrest] at h; exact Option.noConfusion h
      · rw [hrest] at h
        cases Option.some.inj h
        obtain ⟨hlen, helts⟩ := ih vs hrest
        refine ⟨by simp [hlen], fun i hi => ?_⟩
        match i with
        | 0 => simpa using hf
        | j + 1 =>
          have := helts j (by simpa using hi)
          simpa using this

/-- Indexing a zipWith of plane constructors. -/
theorem zipWith_plane_getD :
    ∀ (ha sa : List Nat) (i : Nat), i < ha.length → i < sa.length →
      (List.zipWith (fun h s => GbmKmsPlane.mk h s) ha sa).getD i
          { handle := 0, stride := 0 } =
        { handle := ha.getD i 0, stride := sa.getD i 0 } := by
  intro ha
  induction ha with
  | nil => intro sa i hi _; exact absurd hi (by simp)
  | cons a ha ih =>
    intro sa i hi hs
    rcases sa with _ | ⟨b, sa⟩
    · exact absurd hs (by simp)
    · match i with
      | 0 => rfl
      | j + 1 =>
        have := ih sa j (by simpa using hi) (by simpa using hs)
        simpa using this

/-- Indexing a take prefix reads the original list. -/
theorem getD_take_eq {α : Type} (l : List α) (n i : Nat) (d : α) (h : i < n) :
    (l.take n).getD i d = l.getD i d := by
  rcases Nat.lt_or_ge i l.length with hlen | hlen
  · rw [List.getD_eq_getElem l d (by omega),
      List.getD_eq_getElem (l.take n) d (by simp [List.length_take]; omega)]
    simp
  · rw [List.getD_eq_default l d (by omega),
      List.getD_eq_default (l.take n) d (by simp [List.length_take]; omega)]

/-- C6: import with modifier data rejects any modifier other than the
no-modifier sentinel with EINVAL, regardless of the fds; rejects an fd
count of zero or above MAX_PLANES with EINVAL; fails whole (returning no
BO) as soon as any single fd exchange fails; and on success returns a
non-owning BO whose num_planes equals the fd count and whose planes carry,
in input order, the handle exchanged for each fd and the stride supplied
for it. -/
theorem import_fd_modifier_spec (f : Int → Option Nat) (d : GbmImportFdModifierData) :
    (d.modifier ≠ DRM_FORMAT_MOD_INVALID →
      gbm_kms_import_fd_modifier f d = .error .EINVAL) ∧
    (d.num_fds = 0 ∨ MAX_PLANES < d.num_fds →
      gbm_kms_import_fd_modifier f d = .error .EINVAL) ∧
    (d.modifier = DRM_FORMAT_MOD_INVALID → 1 ≤ d.num_fds → d.num_fds ≤ MAX_PLANES →
      ((∃ fd ∈ d.fds.take d.num_fds, f fd = none) →
        gbm_kms_import_fd_modifier f d = .error .EEXT) ∧
      (d.num_fds ≤ d.fds.length → d.num_fds ≤ d.strides.length →
        ∀ handles, drm_prime_fd_to_handle_each f (d.fds.take d.num_fds) = some handles →
        ∃ bo, gbm_kms_import_fd_modifier f d = .ok bo ∧
          bo.num_planes = d.num_fds ∧
          bo.allocated = false ∧
          bo.planes.length = d.num_fds ∧
          ∀ i, i < d.num_fds →
            f (d.fds.getD i 0) =
              some ((bo.planes.getD i { handle := 0, stride := 0 }).handle) ∧
            (bo.planes.getD i { handle := 0, stride := 0 }).stride =
              d.strides.getD i 0)) := by
  refine ⟨fun hmod => ?_, fun hcount => ?_,
    fun hmod h1 h3 => ⟨fun hex => ?_, fun hfds hstr handles heach => ?_⟩⟩
  · unfold gbm_kms_import_fd_modifier
    rw [if_pos hmod]
  · unfold gbm_kms_import_fd_modifier
    by_cases hmod : d.modifier ≠ DRM_FORMAT_MOD_INVALID
    · rw [if_pos hmod]
    · rw [if_neg hmod, if_pos ?_]
      rcases hcount with h | h
      · exact Or.inl (Nat.le_of_eq h)
      · exact Or.inr h
  · unfold gbm_kms_import_fd_modifier
    rw [if_neg (by simp [hmod]),
      if_neg (not_or.mpr ⟨by omega, not_lt.mpr h3⟩),
      each_none_of_mem f _ hex]
  · unfold gbm_kms_import_fd_modifier
    rw [if_neg (by simp [hmod]),
      if_neg (not_or.mpr ⟨by omega, not_lt.mpr h3⟩), heach]
    obtain ⟨hlen, helts⟩ := each_some_spec f _ _ heach
    have hlen2 : handles.length = d.num_fds := by
      rw [hlen]
      simp [List.length_take]
      omega
    refine ⟨_, rfl, rfl, rfl, ?_, fun i hi => ?_⟩
    · simp [List.length_zipWith, List.length_take, hlen2]
      omega
    · have hz := zipWith_plane_getD handles (d.strides.take d.num_fds) i
        (by omega) (by simp [List.length_take]; omega)
      dsimp only
      rw [hz]
      have hfd := helts i (by simp [List.length_take]; omega)
      rw [getD_take_eq d.fds d.num_fds i 0 hi] at hfd
      exact ⟨hfd, getD_take_eq d.strides d.num_fds i 0 hi⟩

/-- C6 witness: the import theorem evaluated concretely — a modifier of 0
is rejected, an fd count of 0 is rejected, and the three-fd request
sampleImport imports three planes whose handles are the exchanged values
100, 101 and 102 with strides 16, 8 and 8, in input order. -/
theorem import_fd_modifier_spec_witness :
    gbm_kms_import_fd_modifier sampleFdToHandle sampleImportBadModifier =
      .error .EINVAL ∧
    gbm_kms_import_fd_modifier sampleFdToHandle { sampleImport with num_fds := 0 } =
      .error .EINVAL ∧
    ∃ bo, gbm_kms_import_fd_modifier sampleFdToHandle sampleImport = .ok bo ∧
      bo.num_planes = 3 ∧
      bo.allocated = false ∧
      bo.planes.length = 3 ∧
      ∀ i, i < 3 →
        sampleFdToHandle (sampleImport.fds.getD i 0) =
          some ((bo.planes.getD i { handle := 0, stride := 0 }).handle) ∧
        (bo.planes.getD i { handle := 0, stride := 0 }).stride =
          sampleImport.strides.getD i 0 :=
  ⟨(import_fd_modifier_spec sampleFdToHandle sampleImportBadModifier).1 (by decide),
   (import_fd_modifier_spec sampleFdToHandle { sampleImport with num_fds := 0 }).2.1
     (Or.inl rfl),
   ((import_fd_modifier_spec sampleFdToHandle sampleImport).2.2 rfl (by decide)
     (by decide)).2 (by decide) (by decide) [100, 101, 102] (by decide)⟩

/-!  C8: reference-counted map and unmap. -/

/-- N successive calls to gbm_kms_bo_map_ref, each seeing the same
external mapping outcome. -/
def mapRefN (km : Option Nat) : Nat → GbmKmsBo → GbmKmsBo
  | 0, bo => bo
  | n + 1, bo => mapRefN km n (gbm_kms_bo_map_ref km bo).2

/-- N successive calls to gbm_kms_bo_map_unref. -/
def unrefN : Nat → GbmKmsBo → GbmKmsBo
  | 0, bo => bo
  | n + 1, bo => unrefN n (gbm_kms_bo_map_unref bo)

/-- The mapping invariant of the spec: the underlying memory is mapped
(address non NULL) exactly when the reference count is positive. -/
def MapInv (bo : GbmKmsBo) : Prop :=
  bo.addr.isSome ↔ 0 < bo.map_ref

instance (bo : GbmKmsBo) : Decidable (MapInv bo) := by
  unfold MapInv
  infer_instance

/-- Iterating map_ref on a BO whose count is already positive only adds to
the count: the external mapping is never consulted. -/
theorem mapRefN_pos (km : Option Nat) :
    ∀ (n : Nat) (bo : GbmKmsBo), 0 < bo.map_ref →
      mapRefN km n bo = { bo with map_ref := bo.map_ref + n } := by
  intro n
  induction n with
  | zero => intro bo _; simp [mapRefN]
  | succ n ih =>
    intro bo hpos
    have hnz : ¬bo.map_ref = 0 := by omega
    rw [mapRefN]
    unfold gbm_kms_bo_map_ref
    rw [if_neg hnz]
    rw [ih { bo with map_ref := bo.map_ref + 1 } (by simp; omega)]
    ext <;> simp
    omega

/-- From an unmapped BO, N successful map calls leave the address at the
mapped value and the count at N. -/
theorem mapRefN_from_zero (a : Nat) (bo : GbmKmsBo) (N : Nat)
    (h0 : bo.map_ref = 0) (hN : 1 ≤ N) :
    mapRefN (some a) N bo = { bo with addr := some a, map_ref := (N : Int) } := by
  obtain ⟨m, rfl⟩ : ∃ m, N = m + 1 := ⟨N - 1, by omega⟩
  rw [mapRefN]
  unfold gbm_kms_bo_map_ref
  rw [if_pos h0]
  rw [mapRefN_pos (some a) m { bo with addr := some a, map_ref := bo.map_ref + 1 }
    (by simp; omega)]
  ext <;> simp
  omega

/-- Fewer unref calls than the count leaves the BO still mapped, the count
reduced by the number of calls. -/
theorem unrefN_lt :
    ∀ (m k : Nat), m < k → ∀ (bo : GbmKmsBo) (a : Nat),
      bo.map_ref = (k : Int) → bo.addr = some a →
      unrefN m bo = { bo with map_ref := ((k - m : Nat) : Int) } := by
  intro m
  induction m with
  | zero =>
    intro k _ bo a hk _
    rw [unrefN, show ((k - 0 : Nat) : Int) = bo.map_ref from by omega]
  | succ m ih =>
    intro k hmk bo a hk ha
    rw [unrefN]
    unfold gbm_kms_bo_map_unref
    rw [if_neg (by simp [ha]), if_neg (by omega)]
    rw [ih (k - 1) (by omega) { bo with map_ref := bo.map_ref - 1 } a
      (by simp; omega) (by simp [ha])]
    ext <;> simp
    omega

/-- Exactly as many unref calls as the count unmaps the BO: the count
comes back to zero and the address is cleared. -/
theorem unrefN_exact :
    ∀ (k : Nat), 0 < k → ∀ (bo : GbmKmsBo) (a : Nat),
      bo.map_ref = (k : Int) → bo.addr = some a →
      unrefN k bo = { bo with map_ref := 0, addr := none } := by
  intro k
  induction k with
  | zero => omega
  | succ k ih =>
    intro _ bo a hk ha
    rw [unrefN]
    unfold gbm_kms_bo_map_unref
    rw [if_neg (by simp [ha])]
    by_cases hk0 : k = 0
    · subst hk0
      rw [if_pos (by omega)]
      have : unrefN 0 { bo with map_ref := bo.map_ref - 1, addr := none } =
          { bo with map_ref := bo.map_ref - 1, addr := none } := rfl
      rw [this]
      ext <;> simp
      omega
    · rw [if_neg (by omega)]
      rw [ih (by omega) { bo with map_ref := bo.map_ref - 1 } a
        (by simp; omega) (by simp [ha])]

/-- C8: the mapping invariant (mapped iff count positive) is preserved by
map_ref and unref; the first map from an unmapped BO performs the actual
mapping, setting the address and count 1; a map on an already mapped BO
only increments the count and keeps the address, never consulting the
external mapping; unref on an unmapped BO is a no-op, not an error; and
from an unmapped BO, N successful maps followed by N unrefs restore the BO
exactly, while any M < N unrefs leave it still mapped at the same
address. -/
theorem bo_map_refcount_spec (km : Option Nat) (a : Nat) (bo : GbmKmsBo)
    (N M : Nat) :
    (MapInv bo → MapInv (gbm_kms_bo_map_ref km bo).2 ∧
      MapInv (gbm_kms_bo_map_unref bo)) ∧
    (bo.map_ref = 0 → gbm_kms_bo_map_ref (some a) bo =
      (0, { bo with addr := some a, map_ref := 1 })) ∧
    (0 < bo.map_ref → gbm_kms_bo_map_ref km bo =
      (0, { bo with map_ref := bo.map_ref + 1 }) ∧
      ((gbm_kms_bo_map_ref km bo).2).addr = bo.addr) ∧
    (bo.addr = none → gbm_kms_bo_map_unref bo = bo) ∧
    (bo.map_ref = 0 → bo.addr = none → 1 ≤ N →
      (mapRefN (some a) N bo).map_ref = (N : Int) ∧
      (mapRefN (some a) N bo).addr = some a ∧
      unrefN N (mapRefN (some a) N bo) = bo ∧
      (M < N → (unrefN M (mapRefN (some a) N bo)).addr = some a)) := by
  refine ⟨fun hinv => ⟨?_, ?_⟩, fun h0 => ?_, fun hpos => ⟨?_, ?_⟩,
    fun hnone => ?_, fun h0 hnone hN => ?_⟩
  · unfold MapInv at hinv ⊢
    unfold gbm_kms_bo_map_ref
    by_cases h0 : bo.map_ref = 0
    · rcases km with _ | v
      · simpa [h0] using hinv
      · simp [h0]
    · rcases hb : bo.addr with _ | v <;> rw [hb] at hinv <;> simp_all <;> omega
  · unfold MapInv at hinv ⊢
    unfold gbm_kms_bo_map_unref
    by_cases hb : bo.addr = none
    · rw [if_pos hb]; exact hinv
    · rw [if_neg hb]
      rcases hn : bo.addr with _ | v
      · exact absurd hn hb
      · rw [hn] at hinv
        simp only [Option.isSome_some, true_iff] at hinv
        by_cases hz : bo.map_ref - 1 = 0
        · rw [if_pos hz]; simp; omega
        · rw [if_neg hz]; simp; omega
  · unfold gbm_kms_bo_map_ref
    rw [if_pos h0, h0]
    simp
  · unfold gbm_kms_bo_map_ref
    rw [if_neg (by omega)]
  · unfold gbm_kms_bo_map_ref
    rw [if_neg (by omega)]
  · unfold gbm_kms_bo_map_unref
    rw [if_pos hnone]
  · rw [mapRefN_from_zero a bo N h0 hN]
    refine ⟨rfl, rfl, ?_, fun hMN => ?_⟩
    · rw [unrefN_exact N (by omega) _ a rfl rfl]
      ext <;> simp [h0, hnone]
    · rw [unrefN_lt M N hMN _ a rfl rfl]

/-- C8 witness: three successful maps of the unmapped sampleOwningBo leave
it mapped at address 4096 with count 3; two unrefs leave it still mapped;
three unrefs restore it exactly. -/
theorem bo_map_refcount_spec_witness :
    (mapRefN (some 4096) 3 sampleOwningBo).map_ref = 3 ∧
    (mapRefN (some 4096) 3 sampleOwningBo).addr = some 4096 ∧
    unrefN 3 (mapRefN (some 4096) 3 sampleOwningBo) = sampleOwningBo ∧
    (unrefN 2 (mapRefN (some 4096) 3 sampleOwningBo)).addr = some 4096 := by
  obtain ⟨h1, h2, h3, h4⟩ :=
    (bo_map_refcount_spec (some 4096) 4096 sampleOwningBo 3 2).2.2.2.2
      rfl rfl (by omega)
  exact ⟨h1, h2, h3, h4 (by omega)⟩

end LibGbmKms
